import Mathlib

/-!
# Renpho BLE scale client — verification of the protocol driver

A shallow embedding of `custom_components/renpho_ble/renpho_ble_client.py`
(frame codec, notification dispatcher, weight-measurement parser, the
`start_measurement` write sequence) and of the timeout path of
`custom_components/renpho_ble/sensor.py`.

Bytes are modelled as `Nat` with explicit `% 256` wherever the Python code
masks with `& 0xff`; Python floats (`weight_scale`, weights, impedance) are
modelled as `ℚ` (every constant involved — `100.0`, `10.0`, `3.0`, `0.3`,
`400.0` — and every arithmetic step here is exact in ℚ).  Frames are
`List Nat`.  Byte reads `data[i]` are modelled two ways: an `Option`-valued
parser in which an out-of-bounds read yields `none` (a Python `IndexError`,
i.e. an aborted handler), and a total `getD`-based parser; the two are
proved to agree, which is exactly the statement that no handler ever reads
out of bounds.
-/

namespace Renpho

/-- `_build_message(cmd, protocol_type, *payload)`:
`msg = bytearray([cmd, len(payload)+4, protocol_type] + list(payload))`,
`checksum = sum(msg[:-1]) & 0xff`, then `msg[-1] = checksum`.  Writing at
index `-1` of the (always non-empty) bytearray replaces its last element,
modelled as `dropLast ++ [checksum]`. -/
def buildMessage (cmd protocolType : Nat) (payload : List Nat) : List Nat :=
  let msg : List Nat := [cmd, payload.length + 4, protocolType] ++ payload
  let checksum := msg.dropLast.sum % 256
  msg.dropLast ++ [checksum]

/-- `_decode_weight`: `((byte1 & 0xff) << 8) + (byte2 & 0xff)`, divided by
the current `weight_scale`. -/
def decodeWeight (weightScale : ℚ) (byte1 byte2 : Nat) : ℚ :=
  (((byte1 % 256) * 256 + (byte2 % 256) : Nat) : ℚ) / weightScale

/-- `_decode_integer_value`: `((byte1 & 0xff) << 8) + (byte2 & 0xff)`. -/
def decodeIntegerValue (byte1 byte2 : Nat) : Nat :=
  (byte1 % 256) * 256 + (byte2 % 256)

/-- `_calculate_impedance`: `3.0` if `resistance < 410`, else
`0.3 * (resistance - 400.0)`. -/
def calculateImpedance (resistance : Nat) : ℚ :=
  if resistance < 410 then 3 else (3 / 10) * ((resistance : ℚ) - 400)

/-- One emitted measurement record (the dict passed to the callback,
minus the wall-clock timestamp). -/
structure Measurement where
  weight : ℚ
  resistance1 : Nat
  resistance2 : Nat
  impedance : ℚ
deriving Repr, DecidableEq

/-- The mutable session fields of `RenphoBLEClient.__init__`:
`use_first_type`, `final_measure_received`, `weight_scale`,
`seen_protocol_type`, `_connected`, and whether `self.client` is set. -/
structure ClientState where
  useFirstType : Bool
  finalMeasureReceived : Bool
  weightScale : ℚ
  seenProtocolType : Nat
  connected : Bool
  hasClient : Bool
deriving Repr, DecidableEq

/-- The field values set in `__init__` (before `connect`). -/
def initialState : ClientState :=
  { useFirstType := true
    finalMeasureReceived := false
    weightScale := 100
    seenProtocolType := 0
    connected := false
    hasClient := false }

/-- `done_state` for a protocol-type byte (`2` when `protocol_type == 0xff`,
else `1`). -/
def doneStateOf (protocolType : Nat) : Nat :=
  if protocolType == 0xff then 2 else 1

/-- `done_offset` (`4` when `protocol_type == 0xff`, else `5`). -/
def doneOffsetOf (protocolType : Nat) : Nat :=
  if protocolType == 0xff then 4 else 5

/-- `weight_offset` (`5` when `protocol_type == 0xff`, else `3`). -/
def weightOffsetOf (protocolType : Nat) : Nat :=
  if protocolType == 0xff then 5 else 3

/-- `resist_offset` (`7` when `protocol_type == 0xff`, else `6`). -/
def resistOffsetOf (protocolType : Nat) : Nat :=
  if protocolType == 0xff then 7 else 6

/-- The length guard of `_parse_weight_measurement`:
`max(done_offset, weight_offset + 1, resist_offset + 3)`. -/
def weightFrameNeeded (protocolType : Nat) : Nat :=
  max (doneOffsetOf protocolType)
    (max (weightOffsetOf protocolType + 1) (resistOffsetOf protocolType + 3))

/-- `command = data[0] & 0xff` as read by `_parse_custom1_data`. -/
def decodedCommand (data : List Nat) : Nat :=
  data.getD 0 0 % 256

/-- `protocol_type = data[2] & 0xff` as read by `_parse_custom1_data`. -/
def decodedProtocolType (data : List Nat) : Nat :=
  data.getD 2 0 % 256

/-- `_parse_weight_measurement`, total form (in-bounds reads via `getD`).
Returns the updated state and the list of emitted measurements (empty or a
singleton). -/
def parseWeightMeasurementT (s : ClientState) (data : List Nat)
    (protocolType : Nat) : ClientState × List Measurement :=
  let doneState := doneStateOf protocolType
  let doneOffset := doneOffsetOf protocolType
  let weightOffset := weightOffsetOf protocolType
  let resistOffset := resistOffsetOf protocolType
  if data.length ≤ weightFrameNeeded protocolType then
    (s, [])
  else
    let done := data.getD doneOffset 0 % 256
    if done == 0 then
      ({ s with finalMeasureReceived := false }, [])
    else if done == doneState && !s.finalMeasureReceived then
      let s' := { s with finalMeasureReceived := true }
      let weightKg :=
        decodeWeight s.weightScale (data.getD weightOffset 0)
          (data.getD (weightOffset + 1) 0)
      let weightKg := if s.useFirstType then weightKg else weightKg / 10
      if weightKg > 0 then
        let resistance1 :=
          decodeIntegerValue (data.getD resistOffset 0)
            (data.getD (resistOffset + 1) 0)
        let resistance2 :=
          decodeIntegerValue (data.getD (resistOffset + 2) 0)
            (data.getD (resistOffset + 3) 0)
        (s', [⟨weightKg, resistance1, resistance2, calculateImpedance resistance1⟩])
      else
        (s', [])
    else
      (s, [])

/-- The settings-ack payload sent by `_handle_scale_settings`. -/
def settingsAckPayload : List Nat := [0x01, 0x10, 0x00, 0x00, 0x00]

/-- `_handle_scale_settings`, total form: update `weight_scale` from byte 10
when the frame is long enough, and schedule the canned `0x13` reply built
with the *current frame's* protocol-type byte. -/
def handleScaleSettingsT (s : ClientState) (data : List Nat)
    (protocolType : Nat) : ClientState × List (List Nat) :=
  let s' :=
    if data.length > 10 then
      { s with weightScale := if data.getD 10 0 % 256 == 1 then (100 : ℚ) else 10 }
    else s
  (s', [buildMessage 0x13 protocolType settingsAckPayload])

/-- Result of handling one inbound notification: the new state, the
measurements emitted to the callback, and the reply frames scheduled via
`asyncio.create_task(self._send_response(...))`. -/
structure StepOut where
  state : ClientState
  emitted : List Measurement
  replies : List (List Nat)
deriving Repr, DecidableEq

/-- `_parse_custom1_data`, total form: reject frames shorter than 3 bytes,
cache the first non-zero-slot protocol-type byte, then dispatch on the
command byte. -/
def parseCustom1DataT (s : ClientState) (data : List Nat) : StepOut :=
  if data.length < 3 then
    ⟨s, [], []⟩
  else
    let command := decodedCommand data
    let protocolType := decodedProtocolType data
    let s :=
      if s.seenProtocolType == 0 then { s with seenProtocolType := protocolType }
      else s
    if command == 0x10 then
      let r := parseWeightMeasurementT s data protocolType
      ⟨r.1, r.2, []⟩
    else if command == 0x12 then
      let r := handleScaleSettingsT s data protocolType
      ⟨r.1, [], r.2⟩
    else if command == 0x14 then
      ⟨s, [], [buildMessage 0x20 protocolType [0x25, 0x74, 0x18, 0x30]]⟩
    else if command == 0x21 then
      ⟨s, [], [buildMessage 0xa0 0x02 [0xfe, 0xff, 0xee, 0x01, 0x1c, 0x06, 0x86, 0x03, 0x02]]⟩
    else if command == 0x23 then
      ⟨s, [], []⟩
    else if command == 0xa1 then
      ⟨s, [], [buildMessage 0x22 protocolType [0x00, 0x01]]⟩
    else
      ⟨s, [], []⟩

/-- `_parse_weight_measurement` with every byte read `data[i]` modelled as
`data[i]?`: an out-of-bounds read yields `none` (an `IndexError` escaping
the handler). -/
def parseWeightMeasurement (s : ClientState) (data : List Nat)
    (protocolType : Nat) : Option (ClientState × List Measurement) :=
  let doneState := doneStateOf protocolType
  let doneOffset := doneOffsetOf protocolType
  let weightOffset := weightOffsetOf protocolType
  let resistOffset := resistOffsetOf protocolType
  if data.length ≤ weightFrameNeeded protocolType then
    some (s, [])
  else do
    let doneByte ← data[doneOffset]?
    let done := doneByte % 256
    if done == 0 then
      some ({ s with finalMeasureReceived := false }, [])
    else if done == doneState && !s.finalMeasureReceived then do
      let s' := { s with finalMeasureReceived := true }
      let w1 ← data[weightOffset]?
      let w2 ← data[weightOffset + 1]?
      let weightKg := decodeWeight s.weightScale w1 w2
      let weightKg := if s.useFirstType then weightKg else weightKg / 10
      if weightKg > 0 then do
        let r1hi ← data[resistOffset]?
        let r1lo ← data[resistOffset + 1]?
        let r2hi ← data[resistOffset + 2]?
        let r2lo ← data[resistOffset + 3]?
        let resistance1 := decodeIntegerValue r1hi r1lo
        let resistance2 := decodeIntegerValue r2hi r2lo
        some (s', [⟨weightKg, resistance1, resistance2, calculateImpedance resistance1⟩])
      else
        some (s', [])
    else
      some (s, [])

/-- `_handle_scale_settings` with `Option`-modelled byte reads. -/
def handleScaleSettings (s : ClientState) (data : List Nat)
    (protocolType : Nat) : Option (ClientState × List (List Nat)) := do
  let s' ←
    if data.length > 10 then do
      let b ← data[10]?
      pure { s with weightScale := if b % 256 == 1 then (100 : ℚ) else 10 }
    else
      pure s
  pure (s', [buildMessage 0x13 protocolType settingsAckPayload])

/-- `_parse_custom1_data` with `Option`-modelled byte reads; `none` models a
handler aborted by an out-of-bounds access. -/
def parseCustom1Data (s : ClientState) (data : List Nat) : Option StepOut :=
  if data.length < 3 then
    some ⟨s, [], []⟩
  else do
    let b0 ← data[0]?
    let b2 ← data[2]?
    let command := b0 % 256
    let protocolType := b2 % 256
    let s :=
      if s.seenProtocolType == 0 then { s with seenProtocolType := protocolType }
      else s
    if command == 0x10 then do
      let r ← parseWeightMeasurement s data protocolType
      pure ⟨r.1, r.2, []⟩
    else if command == 0x12 then do
      let r ← handleScaleSettings s data protocolType
      pure ⟨r.1, [], r.2⟩
    else if command == 0x14 then
      pure ⟨s, [], [buildMessage 0x20 protocolType [0x25, 0x74, 0x18, 0x30]]⟩
    else if command == 0x21 then
      pure ⟨s, [], [buildMessage 0xa0 0x02 [0xfe, 0xff, 0xee, 0x01, 0x1c, 0x06, 0x86, 0x03, 0x02]]⟩
    else if command == 0x23 then
      pure ⟨s, [], []⟩
    else if command == 0xa1 then
      pure ⟨s, [], [buildMessage 0x22 protocolType [0x00, 0x01]]⟩
    else
      pure ⟨s, [], []⟩

/-- Process a list of inbound notification frames in order (total form),
returning the final state and the number of measurements emitted. -/
def runFramesT (s : ClientState) : List (List Nat) → ClientState × Nat
  | [] => (s, 0)
  | f :: fs =>
    let out := parseCustom1DataT s f
    let r := runFramesT out.state fs
    (r.1, out.emitted.length + r.2)

/-- Whether processing this frame through `_parse_weight_measurement` (with
protocol-type byte `protocolType`) takes the `done == 0` (unsteady) branch
and so clears the final-measure latch. -/
def clearsLatchW (data : List Nat) (protocolType : Nat) : Bool :=
  decide (weightFrameNeeded protocolType < data.length) &&
    (data.getD (doneOffsetOf protocolType) 0 % 256 == 0)

/-- A frame whose dispatch reaches the `done == 0` (unsteady) branch of
`_parse_weight_measurement` and so clears the final-measure latch. -/
def clearsLatch (data : List Nat) : Bool :=
  decide (3 ≤ data.length) && (decodedCommand data == 0x10) &&
    clearsLatchW data (decodedProtocolType data)

/-- `1` when a final measurement can still be emitted (latch clear),
`0` once the latch is set. -/
def latchPot (s : ClientState) : Nat :=
  if s.finalMeasureReceived then 0 else 1

/-! ## The `start_measurement` write sequence

`start_measurement` performs BLE writes/subscriptions through the `bleak`
transport; each awaited call can raise.  The transport is modelled as an
oracle of outcomes and the externally visible effects as a list of
actions. -/

/-- An externally visible transport interaction of `start_measurement`. -/
inductive Action where
  /-- The time-sync probe write of `_try_protocol_type` (protocol-variant
  detection). -/
  | probeWrite
  /-- `_setup_notifications` (`firstType` tells which characteristic set). -/
  | subscribe (firstType : Bool)
  /-- `_send_weight_request` writing `frame` (to the first-type
  characteristic iff `firstType`). -/
  | writeWeightRequest (frame : List Nat) (firstType : Bool)
  /-- `_send_time_magic`. -/
  | writeTimeMagic (firstType : Bool)
deriving Repr, DecidableEq

/-- Outcomes of the transport calls awaited by `start_measurement`. -/
structure Transport where
  probeSucceeds : Bool
  setupSucceeds : Bool
  sendRequestSucceeds : Bool
  sendTimeSucceeds : Bool
deriving Repr, DecidableEq

/-- `_try_protocol_type`: attempt the probe write; on success select the
first (Primary) protocol type, on an exception the alternative.  The
exception is swallowed, so the caller proceeds either way. -/
def tryProtocolType (s : ClientState) (probeSucceeds : Bool) :
    ClientState × List Action :=
  if probeSucceeds then ({ s with useFirstType := true }, [Action.probeWrite])
  else ({ s with useFirstType := false }, [Action.probeWrite])

/-- `weight_unit.lower() == "kg"` selects `0x01`, anything else `0x02`. -/
def weightUnitByte (weightUnit : String) : Nat :=
  if weightUnit.toLower == "kg" then 0x01 else 0x02

/-- The default `weight_unit` argument of `start_measurement`. -/
def kgUnit : String := "kg"

/-- The `0x13` measurement-request frame of `_send_weight_request`, built
with the cached `seen_protocol_type`. -/
def weightRequestFrame (s : ClientState) (weightUnit : String) : List Nat :=
  buildMessage 0x13 s.seenProtocolType
    [weightUnitByte weightUnit, 0x10, 0x00, 0x00, 0x00]

/-- `start_measurement`: bail out returning `False` when not connected or
without a client handle; otherwise run detection, arm notifications, send
the weight request and the time magic, returning `False` (with the
mutations made so far kept) if any of those raises. -/
def startMeasurement (s : ClientState) (t : Transport) (weightUnit : String) :
    Bool × ClientState × List Action :=
  if !s.connected || !s.hasClient then
    (false, s, [])
  else
    let r := tryProtocolType s t.probeSucceeds
    let s1 := r.1
    let acts := r.2 ++ [Action.subscribe s1.useFirstType]
    if !t.setupSucceeds then
      (false, s1, acts)
    else
      let acts := acts ++ [Action.writeWeightRequest (weightRequestFrame s1 weightUnit) s1.useFirstType]
      if !t.sendRequestSucceeds then
        (false, s1, acts)
      else
        let acts := acts ++ [Action.writeTimeMagic s1.useFirstType]
        if !t.sendTimeSucceeds then
          (false, s1, acts)
        else
          (true, s1, acts)

/-- A freshly connected client (all `__init__` defaults, `connect`
succeeded). -/
def connectedState : ClientState :=
  { initialState with connected := true, hasClient := true }

/-- A transport on which every awaited call succeeds. -/
def allOkTransport : Transport :=
  { probeSucceeds := true
    setupSucceeds := true
    sendRequestSucceeds := true
    sendTimeSucceeds := true }

/-- A transport whose probe write raises but whose other calls succeed. -/
def probeFailTransport : Transport :=
  { probeSucceeds := false
    setupSucceeds := true
    sendRequestSucceeds := true
    sendTimeSucceeds := true }

/-! ## The sensor coordinator's timeout path

`RenphoDataUpdateCoordinator._async_update_data` awaits
`asyncio.wait_for(self._measurement_event.wait(), timeout=30.0)`.
`asyncio.wait_for` is external library code; it is modelled by its
documented semantics: it completes normally iff the event is set within
the timeout, and raises `TimeoutError` otherwise.  The (abstract) time at
which the measurement callback sets the event is the oracle
`eventSetAt`. -/

/-- Timeout passed to `asyncio.wait_for` in `_async_update_data`. -/
def measurementTimeout : ℚ := 30

/-- `asyncio.wait_for(event.wait(), timeout)` modelled by its documented
semantics: `true` (normal completion) iff the event is set at some time
`≤ timeout`. -/
def waitForEvent (eventSetAt : Option ℚ) (timeout : ℚ) : Bool :=
  match eventSetAt with
  | some t => decide (t ≤ timeout)
  | none => false

/-- `_async_update_data`: raise `UpdateFailed` when the client is missing
or not connected, when `start_measurement` returns `False`, or when the
30-second wait times out; otherwise return the measurement data. -/
def asyncUpdateData {α : Type} (hasClient clientConnected startOk : Bool)
    (eventSetAt : Option ℚ) (measurementData : α) : Except String α :=
  if !hasClient || !clientConnected then
    Except.error ("Scale not connected")
  else if !startOk then
    Except.error ("Failed to start measurement")
  else if waitForEvent eventSetAt measurementTimeout then
    Except.ok measurementData
  else
    Except.error ("Measurement timeout")

/-! ## Helper lemmas -/

theorem getElem?_eq_some_getD (l : List Nat) (i : Nat) (h : i < l.length) :
    l[i]? = some (l.getD i 0) := by
  rw [List.getD_eq_getElem l 0 h, List.getElem?_eq_getElem h]

theorem someBind {α β : Type} (a : α) (f : α → Option β) :
    (some a >>= f) = f a := rfl

theorem purePair {α : Type} (a : α) : (pure a : Option α) = some a := rfl

theorem offsets_le_needed (protocolType : Nat) :
    doneOffsetOf protocolType ≤ weightFrameNeeded protocolType ∧
      weightOffsetOf protocolType + 1 ≤ weightFrameNeeded protocolType ∧
      resistOffsetOf protocolType + 3 ≤ weightFrameNeeded protocolType := by
  unfold weightFrameNeeded
  omega

theorem three_le_needed (protocolType : Nat) :
    3 ≤ weightFrameNeeded protocolType := by
  unfold weightFrameNeeded doneOffsetOf weightOffsetOf resistOffsetOf
  split <;> omega

theorem buildMessage_length (cmd protocolType : Nat) (payload : List Nat) :
    (buildMessage cmd protocolType payload).length = payload.length + 3 := by
  simp [buildMessage]

theorem parseWeightMeasurement_eq (s : ClientState) (data : List Nat) (pt : Nat) :
    parseWeightMeasurement s data pt = some (parseWeightMeasurementT s data pt) := by
  simp only [parseWeightMeasurement, parseWeightMeasurementT]
  split
  · rfl
  · rename_i hlen
    have hoff := offsets_le_needed pt
    simp only [getElem?_eq_some_getD data (doneOffsetOf pt) (by omega),
      getElem?_eq_some_getD data (weightOffsetOf pt) (by omega),
      getElem?_eq_some_getD data (weightOffsetOf pt + 1) (by omega),
      getElem?_eq_some_getD data (resistOffsetOf pt) (by omega),
      getElem?_eq_some_getD data (resistOffsetOf pt + 1) (by omega),
      getElem?_eq_some_getD data (resistOffsetOf pt + 2) (by omega),
      getElem?_eq_some_getD data (resistOffsetOf pt + 3) (by omega),
      someBind, purePair]
    split
    · rfl
    · split
      · split <;> split <;> rfl
      · rfl

theorem handleScaleSettings_eq (s : ClientState) (data : List Nat) (pt : Nat) :
    handleScaleSettings s data pt = some (handleScaleSettingsT s data pt) := by
  simp only [handleScaleSettings, handleScaleSettingsT]
  split
  · rename_i h
    simp only [getElem?_eq_some_getD data 10 (by omega), Option.some_bind, someBind, purePair]
  · rfl

theorem parseCustom1Data_eq (s : ClientState) (data : List Nat) :
    parseCustom1Data s data = some (parseCustom1DataT s data) := by
  simp only [parseCustom1Data, parseCustom1DataT]
  split
  · rfl
  · rename_i h
    simp only [getElem?_eq_some_getD data 0 (by omega),
      getElem?_eq_some_getD data 2 (by omega), someBind, purePair, decodedCommand,
      decodedProtocolType, parseWeightMeasurement_eq, handleScaleSettings_eq]
    split
    · rfl
    · split
      · rfl
      · split
        · rfl
        · split
          · rfl
          · split
            · rfl
            · split <;> rfl

/-! ## Latch behaviour of the weight parser -/

theorem emitted_le_one (s : ClientState) (data : List Nat) (pt : Nat) :
    (parseWeightMeasurementT s data pt).2.length ≤ 1 := by
  simp only [parseWeightMeasurementT]
  split
  · simp
  · split
    · simp
    · split
      · split <;> split <;> simp
      · simp

theorem emitted_latch (s : ClientState) (data : List Nat) (pt : Nat) :
    (parseWeightMeasurementT s data pt).2 ≠ [] →
      s.finalMeasureReceived = false ∧
        (parseWeightMeasurementT s data pt).1.finalMeasureReceived = true := by
  simp only [parseWeightMeasurementT]
  split
  · simp
  · split
    · simp
    · split
      · rename_i hcond
        have hf : s.finalMeasureReceived = false := by
          have h := (Bool.and_eq_true _ _).mp hcond
          simpa using h.2
        split <;> split <;> exact fun _ => ⟨hf, rfl⟩
      · simp

theorem latch_monotone (s : ClientState) (data : List Nat) (pt : Nat)
    (hcl : clearsLatchW data pt = false) (hf : s.finalMeasureReceived = true) :
    (parseWeightMeasurementT s data pt).1.finalMeasureReceived = true := by
  simp only [parseWeightMeasurementT]
  split
  · exact hf
  · rename_i hlen
    split
    · rename_i hdone
      exfalso
      unfold clearsLatchW at hcl
      simp only [hdone, Bool.and_true, decide_eq_false_iff_not] at hcl
      omega
    · split
      · split <;> split <;> rfl
      · exact hf

theorem unsteady_step (s : ClientState) (data : List Nat) (pt : Nat)
    (hcl : clearsLatchW data pt = true) :
    parseWeightMeasurementT s data pt = ({ s with finalMeasureReceived := false }, []) := by
  unfold clearsLatchW at hcl
  simp only [Bool.and_eq_true, decide_eq_true_eq, beq_iff_eq] at hcl
  simp only [parseWeightMeasurementT]
  rw [if_neg (by omega), if_pos (by simp only [beq_iff_eq]; exact hcl.2)]

theorem parseWeightMeasurementT_latch (s : ClientState) (data : List Nat) (pt : Nat) :
    (parseWeightMeasurementT s data pt).2.length
        + latchPot (parseWeightMeasurementT s data pt).1
      ≤ latchPot s + (if clearsLatchW data pt = true then 1 else 0) := by
  have hA := emitted_le_one s data pt
  cases hcl : clearsLatchW data pt
  · cases hf : s.finalMeasureReceived
    · by_cases he : (parseWeightMeasurementT s data pt).2 = []
      · cases hr : (parseWeightMeasurementT s data pt).1.finalMeasureReceived <;>
          simp [latchPot, he, hf, hr]
      · have hB := emitted_latch s data pt he
        simp only [latchPot, hf, hB.2, if_true, if_false, Bool.false_eq_true]
        simp
        omega
    · have hr := latch_monotone s data pt hcl hf
      have he : (parseWeightMeasurementT s data pt).2 = [] := by
        by_contra hne
        have h := (emitted_latch s data pt hne).1
        rw [hf] at h
        exact Bool.noConfusion h
      simp [latchPot, hf, hr, he]
  · rw [unsteady_step s data pt hcl]
    cases hf : s.finalMeasureReceived <;> simp [latchPot, hf]

theorem latchPot_congr (a b : ClientState)
    (h : a.finalMeasureReceived = b.finalMeasureReceived) : latchPot a = latchPot b := by
  unfold latchPot
  rw [h]

theorem handleScaleSettingsT_latch (s : ClientState) (data : List Nat) (pt : Nat) :
    (handleScaleSettingsT s data pt).1.finalMeasureReceived = s.finalMeasureReceived := by
  unfold handleScaleSettingsT
  split <;> rfl

theorem parseCustom1DataT_latch (s : ClientState) (data : List Nat) :
    (parseCustom1DataT s data).emitted.length + latchPot (parseCustom1DataT s data).state
      ≤ latchPot s + (if clearsLatch data = true then 1 else 0) := by
  by_cases hshort : data.length < 3
  · have h3 : ¬ (3 ≤ data.length) := by omega
    simp [parseCustom1DataT, hshort, clearsLatch, h3, latchPot]
  · have h3 : (3 : Nat) ≤ data.length := by omega
    simp only [parseCustom1DataT, if_neg hshort]
    have hpot : latchPot (if (s.seenProtocolType == 0) = true
        then { s with seenProtocolType := decodedProtocolType data } else s) = latchPot s := by
      split <;> rfl
    split
    · rename_i hcmd
      have hclr : clearsLatch data = clearsLatchW data (decodedProtocolType data) := by
        simp [clearsLatch, h3, hcmd]
      rw [hclr, ← hpot]
      exact parseWeightMeasurementT_latch _ data _
    · split
      · rename_i hcmd
        have hset := handleScaleSettingsT_latch
          (if (s.seenProtocolType == 0) = true
            then { s with seenProtocolType := decodedProtocolType data } else s)
          data (decodedProtocolType data)
        have hps : ({ s with seenProtocolType := decodedProtocolType data }
            : ClientState).finalMeasureReceived = s.finalMeasureReceived := rfl
        rw [latchPot_congr _ s (by rw [hset]; split <;> rfl)]
        simp
      · split
        · rw [hpot]; simp
        · split
          · rw [hpot]; simp
          · split
            · rw [hpot]; simp
            · split
              · rw [hpot]; simp
              · rw [hpot]; simp

theorem runFramesT_latch_bound (frames : List (List Nat)) (s : ClientState) :
    (runFramesT s frames).2 + latchPot (runFramesT s frames).1
      ≤ latchPot s + frames.countP (fun f => clearsLatch f) := by
  induction frames generalizing s with
  | nil => simp [runFramesT]
  | cons f fs ih =>
    have h1 := parseCustom1DataT_latch s f
    have h2 := ih (parseCustom1DataT s f).state
    simp only [runFramesT, List.countP_cons]
    by_cases hc : clearsLatch f = true
    · rw [if_pos hc] at h1
      rw [if_pos hc]
      omega
    · rw [if_neg hc] at h1
      rw [if_neg hc]
      omega

/-! ## C3 — at most one Measurement per request -/

/-- C3: at most one Measurement is emitted per measurement request: over any
run of inbound frames the number of emissions is bounded by one (the single
latch-clear allowance) plus one per `done == 0` (unsteady) frame that clears
the latch; in particular, once the latch is set, a run containing no
unsteady frame emits nothing at all. -/
theorem C3_at_most_one_emission :
    (∀ (s : ClientState) (frames : List (List Nat)),
        (runFramesT s frames).2 ≤ latchPot s + frames.countP (fun f => clearsLatch f)) ∧
      ∀ (s : ClientState) (frames : List (List Nat)),
        s.finalMeasureReceived = true →
        frames.countP (fun f => clearsLatch f) = 0 →
        (runFramesT s frames).2 = 0 := by
  constructor
  · intro s frames
    have h := runFramesT_latch_bound frames s
    omega
  · intro s frames hf hcount
    have h := runFramesT_latch_bound frames s
    rw [hcount] at h
    have hp : latchPot s = 0 := by simp [latchPot, hf]
    omega

/-- C3 witness: with the latch already set, a further final-reading frame
(here a complete command-`0x10` frame with `done == 1` and positive weight)
emits nothing. -/
theorem C3_witness :
    ({ initialState with finalMeasureReceived := true } : ClientState).finalMeasureReceived
        = true ∧
      ([[0x10, 0x0d, 0x00, 0x00, 0x64, 0x01, 0x01, 0x90, 0x01, 0x90]] :
          List (List Nat)).countP (fun f => clearsLatch f) = 0 ∧
      (runFramesT { initialState with finalMeasureReceived := true }
        [[0x10, 0x0d, 0x00, 0x00, 0x64, 0x01, 0x01, 0x90, 0x01, 0x90]]).2 = 0 :=
  ⟨rfl, by decide, C3_at_most_one_emission.2 _ _ rfl (by decide)⟩

/-! ## C7 — when the latch is set -/

/-- C7 counterexample: a final (`done == doneState`) frame whose decoded
weight is `0` sets the latch while emitting NO Measurement, so the latch is
not set "exactly when" a Measurement is emitted. -/
theorem C7_counterexample :
    (parseCustom1DataT initialState
        [0x10, 0x0d, 0x00, 0x00, 0x00, 0x01, 0x01, 0x90, 0x01, 0x90]).emitted = [] ∧
      (parseCustom1DataT initialState
        [0x10, 0x0d, 0x00, 0x00, 0x00, 0x01, 0x01, 0x90, 0x01, 0x90]).state.finalMeasureReceived
        = true := by
  constructor <;>
    norm_num [parseCustom1DataT, parseWeightMeasurementT, decodedCommand,
      decodedProtocolType, initialState, weightFrameNeeded, doneOffsetOf, doneStateOf,
      weightOffsetOf, resistOffsetOf, decodeWeight]

/-- C7 amended: processing a weight frame sets the final-received latch
whenever the frame is long enough, carries `done == doneState`, and the
latch was clear — whether or not a Measurement is emitted (none is when the
decoded weight is ≤ 0) — and every frame that does emit sets the latch. -/
theorem C7_amended :
    (∀ (s : ClientState) (data : List Nat) (protocolType : Nat),
        weightFrameNeeded protocolType < data.length →
        data.getD (doneOffsetOf protocolType) 0 % 256 = doneStateOf protocolType →
        s.finalMeasureReceived = false →
        (parseWeightMeasurementT s data protocolType).1.finalMeasureReceived = true) ∧
      ∀ (s : ClientState) (data : List Nat) (protocolType : Nat),
        (parseWeightMeasurementT s data protocolType).2 ≠ [] →
        (parseWeightMeasurementT s data protocolType).1.finalMeasureReceived = true := by
  constructor
  · intro s data pt hlen hdone hf
    have hds : doneStateOf pt ≠ 0 := by
      unfold doneStateOf
      split <;> omega
    simp only [parseWeightMeasurementT]
    rw [if_neg (by omega), if_neg (by rw [hdone]; simpa using hds),
      if_pos (by rw [hdone, hf]; simp)]
    split <;> split <;> rfl
  · intro s data pt h
    exact (emitted_latch s data pt h).2

/-- C7 amended witness: the zero-weight final frame sets the latch. -/
theorem C7_amended_witness :
    weightFrameNeeded 0
        < ([0x10, 0x0d, 0x00, 0x00, 0x00, 0x01, 0x01, 0x90, 0x01, 0x90] : List Nat).length ∧
      ([0x10, 0x0d, 0x00, 0x00, 0x00, 0x01, 0x01, 0x90, 0x01, 0x90] :
          List Nat).getD (doneOffsetOf 0) 0 % 256 = doneStateOf 0 ∧
      (parseWeightMeasurementT initialState
        [0x10, 0x0d, 0x00, 0x00, 0x00, 0x01, 0x01, 0x90, 0x01, 0x90] 0).1.finalMeasureReceived
        = true :=
  ⟨by decide, by decide,
    C7_amended.1 initialState [0x10, 0x0d, 0x00, 0x00, 0x00, 0x01, 0x01, 0x90, 0x01, 0x90] 0
      (by decide) (by decide) rfl⟩

/-! ## C8 — totality and bounds safety of notification processing -/

/-- C8: processing an inbound notification is total for every byte sequence:
the `Option`-valued parser (in which any out-of-bounds byte read yields
`none`) always returns `some`, agreeing with the total parser — so no read
ever exceeds the frame length; a frame of fewer than 3 bytes is rejected
with no state change, no emission and no reply; and a weight frame no longer
than the maximum offset it needs is ignored without decoding. -/
theorem C8_notification_safety :
    (∀ (s : ClientState) (data : List Nat),
        parseCustom1Data s data = some (parseCustom1DataT s data)) ∧
      (∀ (s : ClientState) (data : List Nat), data.length < 3 →
        parseCustom1Data s data = some ⟨s, [], []⟩) ∧
      ∀ (s : ClientState) (data : List Nat) (protocolType : Nat),
        data.length ≤ weightFrameNeeded protocolType →
        parseWeightMeasurement s data protocolType = some (s, []) := by
  refine ⟨parseCustom1Data_eq, ?_, ?_⟩
  · intro s data h
    rw [parseCustom1Data_eq]
    simp [parseCustom1DataT, h]
  · intro s data pt h
    simp [parseWeightMeasurement, h]

/-- C8 witness: a 1-byte frame is rejected unchanged, and a 3-byte weight
frame is ignored by the measurement parser. -/
theorem C8_witness :
    parseCustom1Data initialState [0x12] = some ⟨initialState, [], []⟩ ∧
      parseWeightMeasurement initialState [0x10, 0x06, 0x00] 0 = some (initialState, []) :=
  ⟨C8_notification_safety.2.1 initialState [0x12] (by decide),
    C8_notification_safety.2.2 initialState [0x10, 0x06, 0x00] 0 (by decide)⟩

/-! ## C2 — final weight frame decoding -/

theorem parseWeightMeasurementT_final (s : ClientState) (data : List Nat) (pt : Nat)
    (hb : ∀ i, i < data.length → data.getD i 0 < 256)
    (hlen : weightFrameNeeded pt < data.length)
    (hdone : data.getD (doneOffsetOf pt) 0 = doneStateOf pt)
    (hlatch : s.finalMeasureReceived = false) :
    parseWeightMeasurementT s data pt =
      (if (if s.useFirstType
          then ((data.getD (weightOffsetOf pt) 0 : ℚ) * 256
              + (data.getD (weightOffsetOf pt + 1) 0 : ℚ)) / s.weightScale
          else ((data.getD (weightOffsetOf pt) 0 : ℚ) * 256
              + (data.getD (weightOffsetOf pt + 1) 0 : ℚ)) / s.weightScale / 10) > 0
      then
        ({ s with finalMeasureReceived := true },
          [⟨(if s.useFirstType
              then ((data.getD (weightOffsetOf pt) 0 : ℚ) * 256
                  + (data.getD (weightOffsetOf pt + 1) 0 : ℚ)) / s.weightScale
              else ((data.getD (weightOffsetOf pt) 0 : ℚ) * 256
                  + (data.getD (weightOffsetOf pt + 1) 0 : ℚ)) / s.weightScale / 10),
            data.getD (resistOffsetOf pt) 0 * 256 + data.getD (resistOffsetOf pt + 1) 0,
            data.getD (resistOffsetOf pt + 2) 0 * 256 + data.getD (resistOffsetOf pt + 3) 0,
            calculateImpedance
              (data.getD (resistOffsetOf pt) 0 * 256 + data.getD (resistOffsetOf pt + 1) 0)⟩])
      else ({ s with finalMeasureReceived := true }, [])) := by
  have hoff := offsets_le_needed pt
  have hds : doneStateOf pt ≠ 0 := by
    unfold doneStateOf
    split <;> omega
  have hds256 : doneStateOf pt % 256 = doneStateOf pt := by
    unfold doneStateOf
    split <;> rfl
  have hw1 : data.getD (weightOffsetOf pt) 0 % 256 = data.getD (weightOffsetOf pt) 0 :=
    Nat.mod_eq_of_lt (hb _ (by omega))
  have hw2 : data.getD (weightOffsetOf pt + 1) 0 % 256 = data.getD (weightOffsetOf pt + 1) 0 :=
    Nat.mod_eq_of_lt (hb _ (by omega))
  have hr1 : data.getD (resistOffsetOf pt) 0 % 256 = data.getD (resistOffsetOf pt) 0 :=
    Nat.mod_eq_of_lt (hb _ (by omega))
  have hr2 : data.getD (resistOffsetOf pt + 1) 0 % 256 = data.getD (resistOffsetOf pt + 1) 0 :=
    Nat.mod_eq_of_lt (hb _ (by omega))
  have hr3 : data.getD (resistOffsetOf pt + 2) 0 % 256 = data.getD (resistOffsetOf pt + 2) 0 :=
    Nat.mod_eq_of_lt (hb _ (by omega))
  have hr4 : data.getD (resistOffsetOf pt + 3) 0 % 256 = data.getD (resistOffsetOf pt + 3) 0 :=
    Nat.mod_eq_of_lt (hb _ (by omega))
  have hw : decodeWeight s.weightScale (data.getD (weightOffsetOf pt) 0)
      (data.getD (weightOffsetOf pt + 1) 0)
      = ((data.getD (weightOffsetOf pt) 0 : ℚ) * 256
          + (data.getD (weightOffsetOf pt + 1) 0 : ℚ)) / s.weightScale := by
    unfold decodeWeight
    rw [hw1, hw2]
    push_cast
    ring_nf
  have hi1 : decodeIntegerValue (data.getD (resistOffsetOf pt) 0)
      (data.getD (resistOffsetOf pt + 1) 0)
      = data.getD (resistOffsetOf pt) 0 * 256 + data.getD (resistOffsetOf pt + 1) 0 := by
    unfold decodeIntegerValue
    rw [hr1, hr2]
  have hi2 : decodeIntegerValue (data.getD (resistOffsetOf pt + 2) 0)
      (data.getD (resistOffsetOf pt + 3) 0)
      = data.getD (resistOffsetOf pt + 2) 0 * 256 + data.getD (resistOffsetOf pt + 3) 0 := by
    unfold decodeIntegerValue
    rw [hr3, hr4]
  simp only [parseWeightMeasurementT]
  rw [if_neg (by omega), if_neg (by rw [hdone, hds256]; simpa using hds),
    if_pos (by rw [hdone, hds256, hlatch]; simp), hw, hi1, hi2]

/-- C2: an inbound command-`0x10` frame that is long enough, carries a
final (`done == doneState`) reading, and arrives with the latch clear is
decoded as: weight = big-endian 16-bit value at the variant's weight offset
divided by the current weight scale (default `100`), additionally divided
by `10` for the alternative variant; and iff that weight is positive, a
Measurement is emitted whose resistances are the big-endian 16-bit pairs of
the resistance block and whose impedance is `3` when `resistance1 < 410`
and `0.3 * (resistance1 - 400)` otherwise. -/
theorem C2_weight_decode (s : ClientState) (data : List Nat)
    (pt hi lo r1hi r1lo r2hi r2lo : Nat)
    (hbytes : ∀ b ∈ data, b < 256)
    (hcmd : decodedCommand data = 0x10)
    (hpt : decodedProtocolType data = pt)
    (hlen : weightFrameNeeded pt < data.length)
    (hdone : data.getD (doneOffsetOf pt) 0 = doneStateOf pt)
    (hlatch : s.finalMeasureReceived = false)
    (hhi : data.getD (weightOffsetOf pt) 0 = hi)
    (hlo : data.getD (weightOffsetOf pt + 1) 0 = lo)
    (h1a : data.getD (resistOffsetOf pt) 0 = r1hi)
    (h1b : data.getD (resistOffsetOf pt + 1) 0 = r1lo)
    (h2a : data.getD (resistOffsetOf pt + 2) 0 = r2hi)
    (h2b : data.getD (resistOffsetOf pt + 3) 0 = r2lo) :
    initialState.weightScale = 100 ∧
      (parseCustom1DataT s data).state.finalMeasureReceived = true ∧
      (parseCustom1DataT s data).emitted =
        (if (if s.useFirstType then ((hi : ℚ) * 256 + (lo : ℚ)) / s.weightScale
            else ((hi : ℚ) * 256 + (lo : ℚ)) / s.weightScale / 10) > 0
        then
          [⟨(if s.useFirstType then ((hi : ℚ) * 256 + (lo : ℚ)) / s.weightScale
              else ((hi : ℚ) * 256 + (lo : ℚ)) / s.weightScale / 10),
            r1hi * 256 + r1lo, r2hi * 256 + r2lo,
            if r1hi * 256 + r1lo < 410 then (3 : ℚ)
            else (3 / 10) * (((r1hi * 256 + r1lo : Nat) : ℚ) - 400)⟩]
        else []) := by
  have hb : ∀ i, i < data.length → data.getD i 0 < 256 := fun i hmem => by
    rw [List.getD_eq_getElem data 0 hmem]
    exact hbytes _ (List.getElem_mem _)
  have h3 := three_le_needed pt
  refine ⟨rfl, ?_, ?_⟩
  · simp only [parseCustom1DataT]
    rw [if_neg (by omega), if_pos (by rw [hcmd]; rfl), hpt]
    by_cases hseen : (s.seenProtocolType == 0) = true
    · rw [if_pos hseen,
        parseWeightMeasurementT_final { s with seenProtocolType := pt } data pt hb hlen hdone
          hlatch]
      split <;> split <;> rfl
    · rw [if_neg hseen,
        parseWeightMeasurementT_final s data pt hb hlen hdone hlatch]
      split <;> split <;> rfl
  · simp only [parseCustom1DataT]
    rw [if_neg (by omega), if_pos (by rw [hcmd]; rfl), hpt]
    by_cases hseen : (s.seenProtocolType == 0) = true
    · rw [if_pos hseen,
        parseWeightMeasurementT_final { s with seenProtocolType := pt } data pt hb hlen hdone
          hlatch,
        show ({ s with seenProtocolType := pt } : ClientState).weightScale
          = s.weightScale from rfl,
        show ({ s with seenProtocolType := pt } : ClientState).useFirstType
          = s.useFirstType from rfl,
        hhi, hlo, h1a, h1b, h2a, h2b]
      by_cases hgt : (if s.useFirstType then ((hi : ℚ) * 256 + (lo : ℚ)) / s.weightScale
          else ((hi : ℚ) * 256 + (lo : ℚ)) / s.weightScale / 10) > 0
      · simp only [if_pos hgt]
        rfl
      · simp only [if_neg hgt]
    · rw [if_neg hseen,
        parseWeightMeasurementT_final s data pt hb hlen hdone hlatch,
        hhi, hlo, h1a, h1b, h2a, h2b]
      by_cases hgt : (if s.useFirstType then ((hi : ℚ) * 256 + (lo : ℚ)) / s.weightScale
          else ((hi : ℚ) * 256 + (lo : ℚ)) / s.weightScale / 10) > 0
      · simp only [if_pos hgt]
        rfl
      · simp only [if_neg hgt]

/-- C2 witness: a complete Primary-offsets final frame with weight bytes
`0x00 0x64` (raw 100, i.e. 1.00 kg at scale 100) and resistance pairs
`0x01 0x90` (400) emits the measurement `⟨1, 400, 400, 3⟩`. -/
theorem C2_witness :
    (parseCustom1DataT initialState
        [0x10, 0x0d, 0x00, 0x00, 0x64, 0x01, 0x01, 0x90, 0x01, 0x90]).emitted
      = [⟨1, 400, 400, 3⟩] ∧
      (parseCustom1DataT initialState
        [0x10, 0x0d, 0x00, 0x00, 0x64, 0x01, 0x01, 0x90, 0x01, 0x90]).state.finalMeasureReceived
      = true := by
  have h := C2_weight_decode initialState
    [0x10, 0x0d, 0x00, 0x00, 0x64, 0x01, 0x01, 0x90, 0x01, 0x90]
    0 0 0x64 0x01 0x90 0x01 0x90
    (by decide) (by decide) (by decide) (by decide) (by decide) rfl
    (by decide) (by decide) (by decide) (by decide) (by decide) (by decide)
  refine ⟨?_, h.2.1⟩
  rw [h.2.2]
  norm_num [initialState]

/-! ## C1 — outbound frame layout and checksum -/

/-- C1 counterexample: the claim says the frame built from command `0`,
protocol type `0`, payload `[1]` is `[0, 5, 0, 1, 6]` with total length
`len(payload) + 4 = 5`; the code actually builds `[0, 5, 0, 5]` of length
`4`, overwriting the payload byte with the checksum. -/
theorem C1_counterexample :
    (buildMessage 0 0 [1]).length ≠ 1 + 4 ∧
      buildMessage 0 0 [1] ≠ [0, 5, 0, 1, 6] ∧
      buildMessage 0 0 [1] = [0, 5, 0, 5] := by
  decide

/-- C1 amended: the built frame is
`[command, len(payload)+4, protocolType, payload...]` with its LAST byte
replaced by the checksum, so its total length is `len(payload) + 3`, every
payload byte except the last appears unchanged starting at index 3, and the
final byte equals the sum of all preceding bytes mod 256. -/
theorem C1_amended (cmd protocolType : Nat) (payload : List Nat) :
    (buildMessage cmd protocolType payload).length = payload.length + 3 ∧
      buildMessage cmd protocolType payload =
        ([cmd, payload.length + 4, protocolType] ++ payload).dropLast ++
          [([cmd, payload.length + 4, protocolType] ++ payload).dropLast.sum % 256] ∧
      (buildMessage cmd protocolType payload).getLast? =
        some ((buildMessage cmd protocolType payload).dropLast.sum % 256) ∧
      ∀ i, i + 1 < payload.length →
        (buildMessage cmd protocolType payload).getD (3 + i) 0 = payload.getD i 0 := by
  refine ⟨buildMessage_length cmd protocolType payload, rfl, ?_, ?_⟩
  · unfold buildMessage
    rw [List.getLast?_concat, List.dropLast_concat]
  · intro i hi
    unfold buildMessage
    have hlen : ([cmd, payload.length + 4, protocolType] ++ payload).dropLast.length
        = payload.length + 2 := by
      simp
    rw [List.getD_eq_getElem?_getD, List.getD_eq_getElem?_getD,
      List.getElem?_append_left (by omega), List.dropLast_eq_take,
      List.getElem?_take]
    have h3 : 3 + i < ([cmd, payload.length + 4, protocolType] ++ payload).length - 1 := by
      simp
      omega
    rw [if_pos h3, List.getElem?_append]
    have h4 : ¬ (3 + i < ([cmd, payload.length + 4, protocolType] : List Nat).length) := by
      simp
    rw [if_neg h4]
    have h5 : 3 + i - ([cmd, payload.length + 4, protocolType] : List Nat).length = i := by
      simp
    rw [h5]

/-- C1 amended witness: concrete instance at command `0x13`, protocol type
`0`, payload `[1, 2, 3]`. -/
theorem C1_amended_witness :
    (buildMessage 0x13 0 [1, 2, 3]).length = 3 + 3 ∧
      (buildMessage 0x13 0 [1, 2, 3]).getD (3 + 1) 0 = ([1, 2, 3] : List Nat).getD 1 0 :=
  ⟨(C1_amended 0x13 0 [1, 2, 3]).1,
    (C1_amended 0x13 0 [1, 2, 3]).2.2.2 1 (by decide)⟩

/-! ## C4 — decode/build round trip -/

/-- C4 counterexample: with an empty payload the checksum overwrites the
protocol-type byte itself: `_build_message(0, 1)` gives `[0, 4, 4]`, whose
decoded protocol type is `4`, not `1` (decoded command is still `0`). -/
theorem C4_counterexample :
    decodedProtocolType (buildMessage 0 1 []) ≠ 1 ∧
      buildMessage 0 1 [] = [0, 4, 4] := by
  decide

/-- C4 amended: for every command byte and protocol-type byte and every
NON-EMPTY payload (as at every call site of `_build_message`), decoding the
built frame recovers the command (index 0) and the protocol type
(index 2). -/
theorem C4_amended (cmd protocolType : Nat) (payload : List Nat)
    (hcmd : cmd < 256) (hpt : protocolType < 256) (hne : payload ≠ []) :
    decodedCommand (buildMessage cmd protocolType payload) = cmd ∧
      decodedProtocolType (buildMessage cmd protocolType payload) = protocolType := by
  simp only [buildMessage, decodedCommand, decodedProtocolType]
  rw [List.dropLast_append_of_ne_nil _ hne]
  constructor
  · show (cmd :: (([payload.length + 4, protocolType] ++ payload.dropLast) ++ _)).getD 0 0 % 256 = cmd
    simpa using Nat.mod_eq_of_lt hcmd
  · show (cmd :: (payload.length + 4) :: protocolType :: (payload.dropLast ++ _)).getD 2 0 % 256
      = protocolType
    simpa using Nat.mod_eq_of_lt hpt

/-- C4 amended witness: concrete instance at command `0x13`, protocol type
`0x25`, payload `[1, 16, 0, 0, 0]`. -/
theorem C4_amended_witness :
    decodedCommand (buildMessage 0x13 0x25 [1, 16, 0, 0, 0]) = 0x13 ∧
      decodedProtocolType (buildMessage 0x13 0x25 [1, 16, 0, 0, 0]) = 0x25 :=
  C4_amended 0x13 0x25 [1, 16, 0, 0, 0] (by decide) (by decide) (by decide)

/-! ## C5 — protocol-variant detection is re-run, not cached -/

/-- C5 counterexample: after a first successful `start_measurement` (probe
succeeded, Primary selected), a second call on the same connection runs the
probe write again, and a differing probe outcome flips the cached variant —
detection is not cached for the connection's lifetime. -/
theorem C5_counterexample :
    Action.probeWrite ∈
        (startMeasurement (startMeasurement connectedState allOkTransport kgUnit).2.1
          probeFailTransport kgUnit).2.2 ∧
      (startMeasurement connectedState allOkTransport kgUnit).2.1.useFirstType = true ∧
      (startMeasurement (startMeasurement connectedState allOkTransport kgUnit).2.1
        probeFailTransport kgUnit).2.1.useFirstType = false := by
  decide

/-- C5 amended: protocol-variant detection runs on EVERY `start_measurement`
call on a connected client: each call attempts the probe write and
overwrites the variant flag with that call's outcome; nothing is cached
across calls. -/
theorem C5_amended (s : ClientState) (t : Transport) (weightUnit : String)
    (hc : s.connected = true) (hcl : s.hasClient = true) :
    Action.probeWrite ∈ (startMeasurement s t weightUnit).2.2 ∧
      (startMeasurement s t weightUnit).2.1.useFirstType = t.probeSucceeds := by
  unfold startMeasurement tryProtocolType
  rcases t with ⟨p, a, b, c⟩
  cases p <;> cases a <;> cases b <;> cases c <;> simp [hc, hcl]

/-- C5 amended witness: a connected client with a failing probe. -/
theorem C5_amended_witness :
    connectedState.connected = true ∧ connectedState.hasClient = true ∧
      Action.probeWrite ∈ (startMeasurement connectedState probeFailTransport kgUnit).2.2 ∧
      (startMeasurement connectedState probeFailTransport kgUnit).2.1.useFirstType
        = probeFailTransport.probeSucceeds :=
  ⟨rfl, rfl, (C5_amended connectedState probeFailTransport kgUnit rfl rfl).1,
    (C5_amended connectedState probeFailTransport kgUnit rfl rfl).2⟩

/-! ## C6 — which protocol-type byte goes on outbound frames -/

theorem parseWeightMeasurementT_seen (s : ClientState) (data : List Nat) (pt : Nat) :
    (parseWeightMeasurementT s data pt).1.seenProtocolType = s.seenProtocolType := by
  simp only [parseWeightMeasurementT]
  split
  · rfl
  · split
    · rfl
    · split
      · split <;> split <;> rfl
      · rfl

theorem handleScaleSettingsT_seen (s : ClientState) (data : List Nat) (pt : Nat) :
    (handleScaleSettingsT s data pt).1.seenProtocolType = s.seenProtocolType := by
  simp only [handleScaleSettingsT]
  split <;> rfl

/-- C6 counterexample: with protocol type `5` cached from the first inbound
frame, the canned reply to a later `0x12` settings frame carrying protocol
type `7` is built with `7` (the answered frame's byte), not with the cached
`5`. -/
theorem C6_counterexample :
    (parseCustom1DataT initialState [0x23, 0x07, 0x05]).state.seenProtocolType = 5 ∧
      ((parseCustom1DataT (parseCustom1DataT initialState [0x23, 0x07, 0x05]).state
          [0x12, 0x07, 0x07]).replies.getD 0 []).getD 2 0 = 7 ∧
      ((parseCustom1DataT (parseCustom1DataT initialState [0x23, 0x07, 0x05]).state
          [0x12, 0x07, 0x07]).replies.getD 0 []).getD 2 0 ≠
        (parseCustom1DataT initialState [0x23, 0x07, 0x05]).state.seenProtocolType := by
  refine ⟨rfl, rfl, ?_⟩
  decide

/-- C6 amended: the protocol-type byte of the first inbound frame that finds
the cache slot still `0` is cached; the cached value is used as the
protocol-type field (index 2) of the measurement-request frame; but each
canned reply echoes the protocol-type byte of the frame being answered —
the `0x12` settings ack, the `0x14` reply and the `0xa1` reply are all
built from the answered frame's byte, and the `0x21` reply is built with
the fixed byte `0x02` — never from the cached value. -/
theorem C6_amended (s : ClientState) (data : List Nat) (weightUnit : String) :
    (3 ≤ data.length → s.seenProtocolType = 0 →
      (parseCustom1DataT s data).state.seenProtocolType = decodedProtocolType data) ∧
      (weightRequestFrame s weightUnit).getD 2 0 = s.seenProtocolType ∧
      (3 ≤ data.length → decodedCommand data = 0x12 →
        (parseCustom1DataT s data).replies
          = [buildMessage 0x13 (decodedProtocolType data) settingsAckPayload]) ∧
      (3 ≤ data.length → decodedCommand data = 0x14 →
        (parseCustom1DataT s data).replies
          = [buildMessage 0x20 (decodedProtocolType data) [0x25, 0x74, 0x18, 0x30]]) ∧
      (3 ≤ data.length → decodedCommand data = 0x21 →
        (parseCustom1DataT s data).replies
          = [buildMessage 0xa0 0x02
              [0xfe, 0xff, 0xee, 0x01, 0x1c, 0x06, 0x86, 0x03, 0x02]]) ∧
      (3 ≤ data.length → decodedCommand data = 0xa1 →
        (parseCustom1DataT s data).replies
          = [buildMessage 0x22 (decodedProtocolType data) [0x00, 0x01]]) := by
  refine ⟨?_, rfl, ?_, ?_, ?_, ?_⟩
  · intro h3 hseen0
    have hno : ¬ data.length < 3 := by omega
    have hseen : (s.seenProtocolType == 0) = true := by rw [hseen0]; rfl
    simp only [parseCustom1DataT]
    rw [if_neg hno, if_pos hseen]
    split
    · exact parseWeightMeasurementT_seen _ data _
    · split
      · exact handleScaleSettingsT_seen _ data (decodedProtocolType data)
      · split
        · rfl
        · split
          · rfl
          · split
            · rfl
            · split
              · rfl
              · rfl
  · intro h3 hcmd
    have hno : ¬ data.length < 3 := by omega
    simp [parseCustom1DataT, hcmd, hno, handleScaleSettingsT]
  · intro h3 hcmd
    have hno : ¬ data.length < 3 := by omega
    simp [parseCustom1DataT, hcmd, hno]
  · intro h3 hcmd
    have hno : ¬ data.length < 3 := by omega
    simp [parseCustom1DataT, hcmd, hno]
  · intro h3 hcmd
    have hno : ¬ data.length < 3 := by omega
    simp [parseCustom1DataT, hcmd, hno]

/-- C6 amended witness: a `0x12` settings frame, a `0x14` frame, a `0x21`
frame and a `0xa1` frame, each carrying protocol type `7`, arriving at a
fresh session. -/
theorem C6_amended_witness :
    (3 ≤ ([0x12, 0x07, 0x07] : List Nat).length) ∧
      initialState.seenProtocolType = 0 ∧
      decodedCommand [0x12, 0x07, 0x07] = 0x12 ∧
      (parseCustom1DataT initialState [0x12, 0x07, 0x07]).state.seenProtocolType
        = decodedProtocolType [0x12, 0x07, 0x07] ∧
      (weightRequestFrame initialState kgUnit).getD 2 0 = initialState.seenProtocolType ∧
      (parseCustom1DataT initialState [0x12, 0x07, 0x07]).replies
        = [buildMessage 0x13 (decodedProtocolType [0x12, 0x07, 0x07]) settingsAckPayload] ∧
      (parseCustom1DataT initialState [0x14, 0x07, 0x07]).replies
        = [buildMessage 0x20 (decodedProtocolType [0x14, 0x07, 0x07])
            [0x25, 0x74, 0x18, 0x30]] ∧
      (parseCustom1DataT initialState [0x21, 0x07, 0x07]).replies
        = [buildMessage 0xa0 0x02
            [0xfe, 0xff, 0xee, 0x01, 0x1c, 0x06, 0x86, 0x03, 0x02]] ∧
      (parseCustom1DataT initialState [0xa1, 0x07, 0x07]).replies
        = [buildMessage 0x22 (decodedProtocolType [0xa1, 0x07, 0x07]) [0x00, 0x01]] :=
  ⟨by decide, rfl, by decide,
    (C6_amended initialState [0x12, 0x07, 0x07] kgUnit).1 (by decide) rfl,
    (C6_amended initialState [0x12, 0x07, 0x07] kgUnit).2.1,
    (C6_amended initialState [0x12, 0x07, 0x07] kgUnit).2.2.1 (by decide) (by decide),
    (C6_amended initialState [0x14, 0x07, 0x07] kgUnit).2.2.2.1 (by decide) (by decide),
    (C6_amended initialState [0x21, 0x07, 0x07] kgUnit).2.2.2.2.1 (by decide) (by decide),
    (C6_amended initialState [0xa1, 0x07, 0x07] kgUnit).2.2.2.2.2 (by decide) (by decide)⟩

/-! ## C9 — the 30-second timeout path -/

/-- C9: if the measurement event is not set within the 30-second window
(`asyncio.wait_for` modelled by its documented semantics), the coordinator
update resolves with the `Measurement timeout` failure instead of leaving
the caller blocked. -/
theorem C9_timeout {α : Type} (hasClient clientConnected startOk : Bool)
    (eventSetAt : Option ℚ) (d : α)
    (h1 : hasClient = true) (h2 : clientConnected = true) (h3 : startOk = true)
    (h4 : ∀ t, eventSetAt = some t → measurementTimeout < t) :
    asyncUpdateData hasClient clientConnected startOk eventSetAt d
      = Except.error ("Measurement timeout") := by
  subst h1 h2 h3
  have hw : waitForEvent eventSetAt measurementTimeout = false := by
    unfold waitForEvent
    cases eventSetAt with
    | none => rfl
    | some t =>
      have ht := h4 t rfl
      simp only [decide_eq_false_iff_not, not_le]
      exact ht
  unfold asyncUpdateData
  simp [hw]

/-- C9 witness: no measurement event at all (the callback never fires). -/
theorem C9_witness :
    asyncUpdateData true true true (none : Option ℚ) (0 : Nat)
      = Except.error ("Measurement timeout") :=
  C9_timeout true true true none 0 rfl rfl rfl (fun t h => by simp at h)

/-! ## C10 — refusing to start while disconnected -/

/-- C10: when the client is not connected or holds no transport handle,
`start_measurement` returns `False` with no write action and no change to
any session field. -/
theorem C10_not_connected (s : ClientState) (t : Transport) (weightUnit : String)
    (h : s.connected = false ∨ s.hasClient = false) :
    startMeasurement s t weightUnit = (false, s, []) := by
  unfold startMeasurement
  rcases h with h | h <;> simp [h]

/-- C10 witness: the freshly initialised (unconnected) client refuses. -/
theorem C10_witness :
    (initialState.connected = false ∨ initialState.hasClient = false) ∧
      startMeasurement initialState allOkTransport kgUnit = (false, initialState, []) :=
  ⟨Or.inl rfl, C10_not_connected initialState allOkTransport kgUnit (Or.inl rfl)⟩

end Renpho
